import Mathlib

/-!
Shallow embedding of the live-data store and layer-rendering subsystem of the
georiskAIAPAC frontend (src/frontend/src), with theorems checking the
natural-language specification against it.

Conventions of the embedding:
* JavaScript numbers appearing in records are embedded as `Int`; no claim here
  depends on fractional coordinate values, so decimal coordinates are embedded
  in fixed-point units of 10^-4 degrees.
* `null`/`undefined`-able fields are embedded as `Option`.
* A zustand store is a record of its state fields; a `fetchX` action is a
  function from the pre-state and the outcome of the awaited network work to
  the post-state.  The network outcome (`FetchResult`) distinguishes an OK
  response with parsed JSON payload, a non-OK response (the code throws on it),
  a thrown non-abort error, and an abort (`AbortError`) — the four terminal
  paths of the try/catch/finally in every store.
* `JSON.stringify` of the fixed object shapes used for the comparison digests
  is implemented concretely as a `String` producer (object keys in the order
  the source writes them; `undefined` optional fields omitted, as
  `JSON.stringify` does).
* The boolean paired with the post-state of a digest-computing fetch is the
  `hasChanged` flag of the source, i.e. whether the fetch emitted a Change
  Event.
-/

/-- A risk record held by the risk store (`riskStore.ts`, `RiskItem`). -/
structure RiskItem where
  id : Int
  country : Option String := none
  city : Option String := none
  latitude : Int := 0
  longitude : Int := 0
  risk_level : Int
  updated_at : Option String := none
  deriving DecidableEq, Repr

/-- The comparison-relevant projection of a `RiskItem` that `fetchRisk` digests:
`(item) => (\x7b id: item.id, risk_level: item.risk_level, updated_at: item.updated_at \x7d)`. -/
structure RiskProj where
  id : Int
  risk_level : Int
  updated_at : Option String
  deriving DecidableEq, Repr

/-- Projection applied inside the digest computation of `fetchRisk`. -/
def projRisk (item : RiskItem) : RiskProj :=
  ⟨item.id, item.risk_level, item.updated_at⟩

/-- Comparator key order of `riskStore.ts`:
`.sort((a, b) => (a.id ?? 0) - (b.id ?? 0))` (the `id` field is always present
per the declared type).  JavaScript `Array.prototype.sort` is a stable sort, so
the sort is embedded as Mathlib insertion sort, which is stable. -/
def riskLe (a b : RiskItem) : Prop := a.id ≤ b.id

instance : DecidableRel riskLe := fun a b => inferInstanceAs (Decidable (a.id ≤ b.id))

instance : IsTotal RiskItem riskLe := ⟨fun a b => Int.le_total a.id b.id⟩

instance : IsTrans RiskItem riskLe := ⟨fun _ _ _ h₁ h₂ => le_trans h₁ h₂⟩

/-- Same id ordering on the projected records. -/
def projLe (a b : RiskProj) : Prop := a.id ≤ b.id

instance : DecidableRel projLe := fun a b => inferInstanceAs (Decidable (a.id ≤ b.id))

instance : IsTotal RiskProj projLe := ⟨fun a b => Int.le_total a.id b.id⟩

instance : IsTrans RiskProj projLe := ⟨fun _ _ _ h₁ h₂ => le_trans h₁ h₂⟩

/-- Strict-key-or-equal order on projected records; antisymmetric, which is
what turns two sorted permutations with distinct keys into equal lists. -/
def projKeyRel (a b : RiskProj) : Prop := a.id < b.id ∨ a = b

instance : IsAntisymm RiskProj projKeyRel := by
  refine ⟨?_⟩
  rintro a b (hab | rfl) hba
  · rcases hba with hba | rfl
    · exact absurd (lt_trans hab hba) (lt_irrefl _)
    · rfl
  · rfl

/-- JSON rendering of one projected risk record, with keys in source order and
the optional `updated_at` omitted when `undefined` (as `JSON.stringify` does).
String values are assumed escape-free (ids/timestamps in this app are). -/
def projJson (p : RiskProj) : String :=
  "\x7b\"id\":" ++ toString p.id ++ ",\"risk_level\":" ++ toString p.risk_level ++
    (match p.updated_at with
      | none => ""
      | some s => ",\"updated_at\":\"" ++ s ++ "\"") ++ "\x7d"

/-- Comparison digest of `fetchRisk` (`riskStore.ts` lines 42-50):
`JSON.stringify([...nextData].sort(by id).map(project))`. -/
def riskDigest (nextData : List RiskItem) : String :=
  "[" ++ String.intercalate "," (((nextData.insertionSort riskLe).map projRisk).map projJson)
    ++ "]"

/-- Outcome of the awaited network portion of a store refresh. -/
inductive FetchResult (π : Type) where
  | ok (payload : π)
  | httpError (status : Nat)
  | netError
  | aborted

/-- Change Event retained by the risk store (`lastEvent`).  The source field
`at` is a reserved word in Lean, so it is embedded as `at_`. -/
structure RiskEvent where
  type : String
  at_ : String
  deriving DecidableEq, Repr

/-- State of the risk store (`riskStore.ts`, `RiskState`). -/
structure RiskState where
  data : List RiskItem
  loading : Bool
  error : Option String
  streamConnected : Bool
  lastEvent : Option RiskEvent
  lastSnapshot : Option String
  deriving DecidableEq, Repr

/-- Initial risk store state (`useRiskStore` create block). -/
def riskInit : RiskState :=
  { data := [], loading := false, error := none, streamConnected := false,
    lastEvent := none, lastSnapshot := none }

/-- Entry `set(\x7b loading: true, error: null \x7d)` shared by every fetch body. -/
def setRiskFetching (s : RiskState) : RiskState :=
  { s with loading := true, error := none }

/-- The `fetchRisk` action of `riskStore.ts`.  The `payload` of an OK response
is `some items` when the parsed JSON was an array and `none` otherwise
(`Array.isArray(payload) ? payload : []`).  `now` embeds
`new Date().toISOString()`.  Returns the post-state together with the
`hasChanged` flag (whether a Change Event was emitted). -/
def fetchRisk (s : RiskState) :
    FetchResult (Option (List RiskItem)) → String → RiskState × Bool
  | .ok payload, now =>
    let s := setRiskFetching s
    let nextData := payload.getD []
    let snapshot := riskDigest nextData
    let hasChanged :=
      match s.lastSnapshot with
      | none => false
      | some prev => snapshot != prev
    ({ s with
        data := nextData
        lastSnapshot := some snapshot
        lastEvent := if hasChanged then some ⟨"risk_updated", now⟩ else s.lastEvent
        loading := false },
      hasChanged)
  | .httpError _, _ =>
    let s := setRiskFetching s
    ({ s with error := some "Unable to load risk data.", loading := false }, false)
  | .netError, _ =>
    let s := setRiskFetching s
    ({ s with error := some "Unable to load risk data.", loading := false }, false)
  | .aborted, _ =>
    let s := setRiskFetching s
    ({ s with loading := false }, false)

/-- A hotspot record held by the GDELT store (`gdeltStore.ts`, `GdeltHotspot`). -/
structure GdeltHotspot where
  latitude : Int
  longitude : Int
  count : Int
  deriving DecidableEq, Repr

/-- Parsed JSON payload of `GET /api/gdelt`: `features` is `some list` when
`payload.features` was an array (`Array.isArray(payload.features)`) and `none`
otherwise; `query` is `none` when `payload.query` was nullish
(`payload.query ?? GDELT_DEFAULT_QUERY`). -/
structure GdeltPayload where
  features : Option (List GdeltHotspot)
  query : Option String
  deriving Repr

/-- Default query of the GDELT store (`GDELT_DEFAULT_QUERY`). -/
def GDELT_DEFAULT_QUERY : String := "military"

/-- Change Event retained by the GDELT store.  The source field `at` is a
reserved word in Lean, so it is embedded as `at_`. -/
structure GdeltEvent where
  type : String
  at_ : String
  query : String
  deriving DecidableEq, Repr

/-- State of the GDELT store (`gdeltStore.ts`, `GdeltState`). -/
structure GdeltState where
  data : List GdeltHotspot
  query : String
  loading : Bool
  error : Option String
  streamConnected : Bool
  lastEvent : Option GdeltEvent
  lastSnapshot : Option String
  deriving DecidableEq, Repr

/-- Initial GDELT store state (`useGdeltStore` create block). -/
def gdeltInit : GdeltState :=
  { data := [], query := GDELT_DEFAULT_QUERY, loading := false, error := none,
    streamConnected := false, lastEvent := none, lastSnapshot := none }

/-- Entry `set(\x7b loading: true, error: null \x7d)` of `fetchGdelt`. -/
def setGdeltFetching (s : GdeltState) : GdeltState :=
  { s with loading := true, error := none }

/-- Comparison digest of `fetchGdelt` (`gdeltStore.ts` line 46):
`JSON.stringify(\x7b q: nextQuery, len: features.length \x7d)`. -/
def gdeltDigest (q : String) (len : Nat) : String :=
  "\x7b\"q\":\"" ++ q ++ "\",\"len\":" ++ toString len ++ "\x7d"

/-- The `fetchGdelt` action of `gdeltStore.ts`.  Returns the post-state with
the `hasChanged` flag. -/
def fetchGdelt (s : GdeltState) :
    FetchResult GdeltPayload → String → GdeltState × Bool
  | .ok payload, now =>
    let s := setGdeltFetching s
    let features := payload.features.getD []
    let nextQuery := payload.query.getD GDELT_DEFAULT_QUERY
    let snapshot := gdeltDigest nextQuery features.length
    let hasChanged :=
      match s.lastSnapshot with
      | none => false
      | some prev => snapshot != prev
    ({ s with
        data := features
        query := nextQuery
        error := none
        lastSnapshot := some snapshot
        lastEvent :=
          if hasChanged then some ⟨"gdelt_updated", now, nextQuery⟩ else s.lastEvent
        loading := false },
      hasChanged)
  | .httpError _, _ =>
    let s := setGdeltFetching s
    ({ s with error := some "Unable to load GDELT hotspots.", loading := false }, false)
  | .netError, _ =>
    let s := setGdeltFetching s
    ({ s with error := some "Unable to load GDELT hotspots.", loading := false }, false)
  | .aborted, _ =>
    let s := setGdeltFetching s
    ({ s with loading := false }, false)

/-- A flight-state record held by the radar store
(`radarStore.ts`, `RadarStateItem`). -/
structure RadarStateItem where
  icao24 : Option String
  callsign : Option String
  latitude : Int
  longitude : Int
  baro_altitude : Option Int
  true_track : Option Int
  deriving DecidableEq, Repr

/-- One raw element of the `GET /api/opensky/states` JSON array before the
per-record mapping in `fetchRadar`. -/
structure RadarRaw where
  icao24 : Option String
  callsign : Option String
  latitude : Int
  longitude : Int
  baro_altitude : Option Int
  true_track : Option Int
  deriving DecidableEq, Repr

/-- Per-record mapping of `fetchRadar`:
`(r) => (\x7b icao24: r.icao24 ?? null, ..., true_track: r.true_track != null ? Number(r.true_track) : null \x7d)`. -/
def radarItemOfRaw (r : RadarRaw) : RadarStateItem :=
  ⟨r.icao24, r.callsign, r.latitude, r.longitude, r.baro_altitude, r.true_track⟩

/-- State of the radar store (`radarStore.ts`, `RadarState`). -/
structure RadarState where
  data : List RadarStateItem
  loading : Bool
  error : Option String
  deriving DecidableEq, Repr

/-- Initial radar store state. -/
def radarInit : RadarState := { data := [], loading := false, error := none }

/-- Entry `set(\x7b loading: true, error: null \x7d)` of `fetchRadar`. -/
def setRadarFetching (s : RadarState) : RadarState :=
  { s with loading := true, error := none }

/-- The `fetchRadar` action of `radarStore.ts`.  The OK payload is `some raws`
when the parsed JSON was an array and `none` otherwise. -/
def fetchRadar (s : RadarState) : FetchResult (Option (List RadarRaw)) → RadarState
  | .ok raw =>
    let s := setRadarFetching s
    let data := (raw.getD []).map radarItemOfRaw
    { s with data := data, error := none, loading := false }
  | .httpError _ =>
    let s := setRadarFetching s
    { s with error := some "Unable to load flight data.", loading := false }
  | .netError =>
    let s := setRadarFetching s
    { s with error := some "Unable to load flight data.", loading := false }
  | .aborted =>
    let s := setRadarFetching s
    { s with loading := false }

/-- Fixed poll interval of the radar store (`RADAR_POLL_MS`). -/
def RADAR_POLL_MS : Nat := 15000

/-- Radar store together with the module-level `pollTimer` handle: `some i`
means a recurring refresh is scheduled every `i` milliseconds. -/
structure RadarPollState where
  store : RadarState
  pollTimer : Option Nat
  deriving DecidableEq, Repr

/-- The `startRadarPolling` function of `radarStore.ts`: clear any existing
timer, await one `fetchRadar`, then schedule the recurring poll only when
`polling` was requested and the store data is non-empty afterwards.  The
cleared previous timer is reflected in the result being computed from scratch,
independent of `st.pollTimer`. -/
def startRadarPolling (polling : Bool) (st : RadarPollState)
    (result : FetchResult (Option (List RadarRaw))) : RadarPollState :=
  let store := fetchRadar st.store result
  let pollTimer :=
    if polling && decide (store.data.length > 0) then some RADAR_POLL_MS else none
  ⟨store, pollTimer⟩

/-- A price record held by the price store (`priceStore.ts`, `PriceItem`). -/
structure PriceItem where
  country : String
  currency : Option String
  latitude : Int
  longitude : Int
  gold_usd : Option Int
  silver_usd : Option Int
  gold_local : Option Int
  silver_local : Option Int
  fx_rate : Option Int
  unit : Option String := none
  gold_unit : Option String := none
  silver_unit : Option String := none
  retrieved_at : Option String := none
  deriving DecidableEq, Repr

/-- Shape of a parsed `/api/price` (and `/api/jpmorgan`) response as the source
discriminates it: `payload.items` is an array, or the payload itself is a bare
array, or neither (`Array.isArray(payload?.items) ? payload.items :
Array.isArray(payload) ? payload : []`). -/
inductive ItemsPayload (α : Type) where
  | itemsField (items : List α)
  | bareArray (items : List α)
  | malformed

/-- Item list the source extracts from an `ItemsPayload`. -/
def ItemsPayload.items : ItemsPayload α → List α
  | .itemsField items => items
  | .bareArray items => items
  | .malformed => []

/-- State of the price store (`priceStore.ts`, `PriceState`). -/
structure PriceState where
  data : List PriceItem
  loading : Bool
  error : Option String
  deriving DecidableEq, Repr

/-- The `fetchPrices` action of `priceStore.ts`. -/
def fetchPrices (s : PriceState) : FetchResult (ItemsPayload PriceItem) → PriceState
  | .ok payload =>
    let s := { s with loading := true, error := none }
    { s with data := payload.items, loading := false }
  | .httpError _ =>
    let s := { s with loading := true, error := none }
    { s with error := some "Unable to load price data.", loading := false }
  | .netError =>
    let s := { s with loading := true, error := none }
    { s with error := some "Unable to load price data.", loading := false }
  | .aborted =>
    let s := { s with loading := true, error := none }
    { s with loading := false }

/-- A travel-advisory record (`travelAdvisoryStore.ts`, `TravelAdvisoryItem`). -/
structure TravelAdvisoryItem where
  country : String
  country_name : Option String := none
  level : Option Int
  error : Option String := none
  retrieved_at : Option String := none
  deriving DecidableEq, Repr

/-- State of the travel advisory store (`travelAdvisoryStore.ts`). -/
structure TravelAdvisoryState where
  data : List TravelAdvisoryItem
  loading : Bool
  error : Option String
  deriving DecidableEq, Repr

/-- The `fetchTravelAdvisories` action of `travelAdvisoryStore.ts`.  The OK
payload is `some items` when `payload.items` was an array and `none` otherwise. -/
def fetchTravelAdvisories (s : TravelAdvisoryState) :
    FetchResult (Option (List TravelAdvisoryItem)) → TravelAdvisoryState
  | .ok payload =>
    let s := { s with loading := true, error := none }
    { s with data := payload.getD [], loading := false }
  | .httpError _ =>
    let s := { s with loading := true, error := none }
    { s with error := some "Unable to load travel advisories.", loading := false }
  | .netError =>
    let s := { s with loading := true, error := none }
    { s with error := some "Unable to load travel advisories.", loading := false }
  | .aborted =>
    let s := { s with loading := true, error := none }
    { s with loading := false }

/-- A facility record held by the JP Morgan store
(`jpmorganStore.ts`, `JPMorganOffice`). -/
structure JPMorganOffice where
  id : Int
  city : String
  country : String
  address : String
  latitude : Int
  longitude : Int
  office_type : Option String := none
  phone : Option String := none
  deriving DecidableEq, Repr

/-- Hardcoded fallback office list of `jpmorganStore.ts` (`APAC_OFFICES`).
Decimal coordinates embedded in units of 10^-4 degrees. -/
def APAC_OFFICES : List JPMorganOffice :=
  [ { id := 1, city := "Hong Kong", country := "China",
      address := "25/F, Chater House, 8 Connaught Road Central",
      latitude := 222819, longitude := 1141558,
      office_type := some "Investment Banking" },
    { id := 2, city := "Singapore", country := "Singapore",
      address := "168 Robinson Road, #20-01 Capital Tower",
      latitude := 12801, longitude := 1038509,
      office_type := some "Investment Banking" },
    { id := 3, city := "Tokyo", country := "Japan",
      address := "Marunouchi Park Building, 2-6-1 Marunouchi, Chiyoda-ku",
      latitude := 356812, longitude := 1397671,
      office_type := some "Investment Banking" },
    { id := 4, city := "Sydney", country := "Australia",
      address := "Level 25, 60 Martin Place",
      latitude := -338688, longitude := 1512093,
      office_type := some "Investment Banking" },
    { id := 5, city := "Mumbai", country := "India",
      address := "J.P. Morgan Tower, C-59, G-Block, Bandra Kurla Complex",
      latitude := 190604, longitude := 728777,
      office_type := some "Investment Banking" },
    { id := 6, city := "Shanghai", country := "China",
      address := "45/F, Shanghai IFC, 8 Century Avenue, Pudong New Area",
      latitude := 312304, longitude := 1214737,
      office_type := some "Investment Banking" },
    { id := 7, city := "Seoul", country := "South Korea",
      address := "23F, Seoul Finance Center, 84 Taepyeongno 1-ga, Jung-gu",
      latitude := 375665, longitude := 1269780,
      office_type := some "Investment Banking" },
    { id := 8, city := "Bangkok", country := "Thailand",
      address := "20/F, Sathorn Square, 98 North Sathorn Road",
      latitude := 137279, longitude := 1005331,
      office_type := some "Investment Banking" },
    { id := 9, city := "Jakarta", country := "Indonesia",
      address := "33rd Floor, World Trade Center, Jl. Jend. Sudirman Kav. 29-31",
      latitude := -62088, longitude := 1068456,
      office_type := some "Investment Banking" },
    { id := 10, city := "Manila", country := "Philippines",
      address := "12/F, Tower 1, RCBC Plaza, 6819 Ayala Avenue, Makati",
      latitude := 145547, longitude := 1210244,
      office_type := some "Investment Banking" } ]

/-- State of the JP Morgan store (`jpmorganStore.ts`). -/
structure JPMorganState where
  data : List JPMorganOffice
  loading : Bool
  error : Option String
  deriving DecidableEq, Repr

/-- The `fetchOffices` action of `jpmorganStore.ts`.  The inner try/catch
swallows every fetch failure — including a non-OK response, a thrown network
error and even an `AbortError` — and falls back to the hardcoded
`APAC_OFFICES` list; the same fallback is taken when an OK response parses to
an empty item list.  The outer catch (which would set `error`) is unreachable
from the fetch, so `error` is never set and `data` is always replaced. -/
def fetchOffices (s : JPMorganState) : FetchResult (ItemsPayload JPMorganOffice) → JPMorganState
  | .ok payload =>
    let s := { s with loading := true, error := none }
    let items := payload.items
    if items.length > 0 then { s with data := items, loading := false }
    else { s with data := APAC_OFFICES, loading := false }
  | .httpError _ =>
    let s := { s with loading := true, error := none }
    { s with data := APAC_OFFICES, loading := false }
  | .netError =>
    let s := { s with loading := true, error := none }
    { s with data := APAC_OFFICES, loading := false }
  | .aborted =>
    let s := { s with loading := true, error := none }
    { s with data := APAC_OFFICES, loading := false }

/-- Fixed reconnect delay of the GDELT stream (`GDELT_RECONNECT_DELAY_MS`). -/
def GDELT_RECONNECT_DELAY_MS : Nat := 2000

/-- Observable state of a push-channel (EventSource) subscription as managed by
a store module: whether the module-level handle holds an open channel, the
store `streamConnected` flag, how many reconnect timers are currently
scheduled and not yet fired, and the delay passed to the most recent
`setTimeout` reconnect (if any ever was). -/
structure StreamState where
  channelOpen : Bool
  streamConnected : Bool
  pendingReconnects : Nat
  lastScheduledDelayMs : Option Nat
  deriving DecidableEq, Repr

/-- Initial stream state: no channel, not connected, nothing scheduled. -/
def streamInit : StreamState :=
  { channelOpen := false, streamConnected := false, pendingReconnects := 0,
    lastScheduledDelayMs := none }

/-- The `source.onerror` handler of `startRiskStream` (`riskStore.ts` lines
84-86): it only flips `streamConnected` to false.  It does not close the
channel, does not clear the module handle, and schedules nothing. -/
def riskStreamOnError (s : StreamState) : StreamState :=
  { s with streamConnected := false }

/-- The `source.onerror` handler of `connectGdeltStream` (`gdeltStore.ts` lines
85-90): set `streamConnected` false, close the channel and null the handle,
and `setTimeout(connectGdeltStream, GDELT_RECONNECT_DELAY_MS)`. -/
def gdeltStreamOnError (s : StreamState) : StreamState :=
  { s with
      streamConnected := false
      channelOpen := false
      pendingReconnects := s.pendingReconnects + 1
      lastScheduledDelayMs := some GDELT_RECONNECT_DELAY_MS }

/-- The `connectGdeltStream` body: no-op when a channel handle exists,
otherwise open a channel and set `streamConnected` true (the immediate
`fetchGdelt` it triggers acts on the store state, not the stream state). -/
def connectGdeltStream (s : StreamState) : StreamState :=
  if s.channelOpen then s
  else { s with channelOpen := true, streamConnected := true }

/-- Events acting on the GDELT stream state: an external `startGdeltStream`
call, a channel error (only a live channel fires one — a closed EventSource
dispatches no events), a scheduled reconnect timer firing (which calls
`connectGdeltStream` again), and `stopGdeltStream`. -/
inductive StreamEvent where
  | start
  | chanError
  | timerFire
  | stop
  deriving DecidableEq, Repr

/-- Small-step transition of the GDELT stream lifecycle
(`gdeltStore.ts` lines 76-104). -/
def gdeltStreamStep (s : StreamState) : StreamEvent → StreamState
  | .start => if s.channelOpen then s else connectGdeltStream s
  | .chanError => if s.channelOpen then gdeltStreamOnError s else s
  | .timerFire =>
    if s.pendingReconnects > 0 then
      connectGdeltStream { s with pendingReconnects := s.pendingReconnects - 1 }
    else s
  | .stop => { s with channelOpen := false, streamConnected := false }

/-- States of the GDELT stream reachable after the application start call, via
channel errors, reconnect-timer firings and stop calls. -/
inductive GdeltStreamReachable : StreamState → Prop where
  | start : GdeltStreamReachable (gdeltStreamStep streamInit .start)
  | chanError {s} : GdeltStreamReachable s →
      GdeltStreamReachable (gdeltStreamStep s .chanError)
  | timerFire {s} : GdeltStreamReachable s →
      GdeltStreamReachable (gdeltStreamStep s .timerFire)
  | stop {s} : GdeltStreamReachable s →
      GdeltStreamReachable (gdeltStreamStep s .stop)

/-- Ring handling of `renderCountryGeometry`
(`useArcGISTravelAdvisoryLayer.ts` lines 745-760): the rendered outer ring is
`geometry.coordinates[0].map((coord) => [coord[0], coord[1]])` — every vertex
of the input ring, projected to its first two components (which for a
GeoJSON position pair is the whole vertex). -/
def outerRingOfRing (ring : List (Int × Int)) : List (Int × Int) :=
  ring.map (fun coord => (coord.1, coord.2))

/-- Graphics layers participating in map hit-testing, identified the way the
source identifies them: the risk layer object (titled City), the facility
layer (titled JP Morgan Offices), the price layer (titled Metals Price), or
any other layer with an optional title. -/
inductive MapLayerTag where
  | city
  | jpmorganOffices
  | metalsPrice
  | otherLayer (title : Option String)
  deriving DecidableEq, Repr

/-- The `title` property of a layer. -/
def layerTitle : MapLayerTag → Option String
  | .city => some "City"
  | .jpmorganOffices => some "JP Morgan Offices"
  | .metalsPrice => some "Metals Price"
  | .otherLayer t => t

/-- The record carried in a graphic attribute (`attributes.item`), tagged per
domain. -/
inductive MapItem where
  | riskItem (item : RiskItem)
  | priceItem (item : PriceItem)
  | officeItem (item : JPMorganOffice)
  deriving DecidableEq, Repr

/-- A graphic in a hit-test result: the layer it belongs to (`graphic.layer`,
nullable) and the domain record attached to its attributes (`attributes.item`
for the risk and price layers, `attributes.office` for the facility layer). -/
structure HitGraphic where
  layer : Option MapLayerTag
  item : MapItem
  deriving DecidableEq, Repr

/-- One element of `view.hitTest(event).results` (`result.graphic` nullable). -/
structure HitResult where
  graphic : Option HitGraphic
  deriving DecidableEq, Repr

/-- Payload handed to `onSelect` on a click (`payload: \x7b type, item \x7d`);
the screen coordinates the source also passes are irrelevant to which record
the click resolves to and are not embedded. -/
structure ClickPayload where
  type : String
  item : MapItem
  deriving DecidableEq, Repr

/-- Priority predicate of the risk layer click handler
(`useArcGISRiskLayer.ts` lines 85-97): a result whose graphic belongs to a
layer titled JP Morgan Offices or Metals Price. -/
def isPriorityHit (r : HitResult) : Bool :=
  match r.graphic with
  | none => false
  | some g =>
    match g.layer with
    | none => false
    | some tag =>
      layerTitle tag == some "JP Morgan Offices" || layerTitle tag == some "Metals Price"

/-- Embeds `result.graphic?.layer === graphicsLayer` — the graphic belongs to
the handler speaking layer. -/
def hitOnLayer (tag : MapLayerTag) (r : HitResult) : Bool :=
  match r.graphic with
  | none => false
  | some g => g.layer == some tag

/-- Click handler of the risk layer (`useArcGISRiskLayer.ts` lines 78-121):
suppress the click entirely when any higher-priority point-layer hit is
present, otherwise select the first own-layer hit.  Returns the payload passed
to `onSelect`, or `none` when `onSelect` is not invoked. -/
def riskClickSelection (results : List HitResult) : Option ClickPayload :=
  if (results.find? isPriorityHit).isSome then none
  else
    match results.find? (hitOnLayer .city) with
    | some r =>
      match r.graphic with
      | some g => some ⟨"risk", g.item⟩
      | none => none
    | none => none

/-- Click handler of the price layer (`useArcGISPriceLayer.ts` lines 87-110):
when enabled, select the first hit on the price layer.  Returns the payload
passed to `onSelect`, or `none` when `onSelect` is not invoked. -/
def priceClickSelection (enabled : Bool) (results : List HitResult) : Option ClickPayload :=
  if !enabled then none
  else
    match results.find? (hitOnLayer .metalsPrice) with
    | some r =>
      match r.graphic with
      | some g => some ⟨"price", g.item⟩
      | none => none
    | none => none

/-- Click handler of the facility layer (`useArcGISJPMorganLayer` in
`useRiskLayer.ts`): select the first hit on the layer titled JP Morgan
Offices and pass `payload: \x7b type: jpmorgan, office \x7d` to `onSelect`;
the handler has no enabled guard (only a destroyed-view check).  Returns the
payload passed to `onSelect`, or `none` when `onSelect` is not invoked. -/
def jpmorganClickSelection (results : List HitResult) : Option ClickPayload :=
  match results.find? (hitOnLayer .jpmorganOffices) with
  | some r =>
    match r.graphic with
    | some g => some ⟨"jpmorgan", g.item⟩
    | none => none
  | none => none

/-- Layer identifiers accepted by `getLayerLoading`. -/
inductive LayerId where
  | risk
  | jpmorgan
  | price
  | travel_advisory
  | gdelt
  | radar
  deriving DecidableEq, Repr

/-- One entry of the layer visibility registry (`layerStore`). -/
structure LayerEntry where
  id : LayerId
  label : String
  enabled : Bool
  deriving DecidableEq, Repr

/-- Store state read by the layer list component: the visibility registry and
each domain store `(loading, data)` pair. -/
structure LayerListState where
  layers : List LayerEntry
  riskLoading : Bool
  riskData : List RiskItem
  priceLoading : Bool
  priceData : List PriceItem
  jpmorganLoading : Bool
  jpmorganData : List JPMorganOffice
  travelAdvisoryLoading : Bool
  travelAdvisoryData : List TravelAdvisoryItem
  gdeltLoading : Bool
  gdeltData : List GdeltHotspot
  radarLoading : Bool
  radarData : List RadarStateItem

/-- Embeds `layers.find((layer) => layer.id === id)?.enabled ?? false`. -/
def findLayerEnabled (layers : List LayerEntry) (id : LayerId) : Bool :=
  match layers.find? (fun l => l.id == id) with
  | some l => l.enabled
  | none => false

/-- The `getLayerLoading` helper (`useArcGISPriceLayer.ts` lines 268-299):
per-id switch, each branch
`(loading || (isEnabled && data.length === 0)) && data.length === 0`. -/
def getLayerLoading (s : LayerListState) (id : LayerId) : Bool :=
  let isEnabled := findLayerEnabled s.layers id
  match id with
  | .risk =>
    (s.riskLoading || (isEnabled && s.riskData.length == 0)) && s.riskData.length == 0
  | .price =>
    (s.priceLoading || (isEnabled && s.priceData.length == 0)) && s.priceData.length == 0
  | .jpmorgan =>
    (s.jpmorganLoading || (isEnabled && s.jpmorganData.length == 0))
      && s.jpmorganData.length == 0
  | .travel_advisory =>
    (s.travelAdvisoryLoading || (isEnabled && s.travelAdvisoryData.length == 0))
      && s.travelAdvisoryData.length == 0
  | .gdelt =>
    (s.gdeltLoading || (isEnabled && s.gdeltData.length == 0)) && s.gdeltData.length == 0
  | .radar =>
    (s.radarLoading || (isEnabled && s.radarData.length == 0)) && s.radarData.length == 0

/-- Loading flag of the store backing a layer id (selector used to state the
specification formula about `getLayerLoading`). -/
def storeLoadingOf (s : LayerListState) : LayerId → Bool
  | .risk => s.riskLoading
  | .price => s.priceLoading
  | .jpmorgan => s.jpmorganLoading
  | .travel_advisory => s.travelAdvisoryLoading
  | .gdelt => s.gdeltLoading
  | .radar => s.radarLoading

/-- Data length of the store backing a layer id. -/
def storeDataLen (s : LayerListState) : LayerId → Nat
  | .risk => s.riskData.length
  | .price => s.priceData.length
  | .jpmorgan => s.jpmorganData.length
  | .travel_advisory => s.travelAdvisoryData.length
  | .gdelt => s.gdeltData.length
  | .radar => s.radarData.length

/-- Sample risk record used for concrete instantiations. -/
def riskItemA : RiskItem := { id := 1, risk_level := 10 }

/-- Second sample risk record with the same natural key as `riskItemA` but a
different risk level (a duplicate-key snapshot member). -/
def riskItemB : RiskItem := { id := 1, risk_level := 85 }

/-- Sample risk record with a distinct natural key. -/
def riskItemC : RiskItem := { id := 2, risk_level := 55 }

/-- A risk store state holding a non-empty snapshot. -/
def sampleRiskState : RiskState := { riskInit with data := [riskItemA] }

/-- A risk store state whose error field is non-null. -/
def erroredRiskState : RiskState :=
  { riskInit with error := some "Unable to load risk data." }

/-- Sample radar raw record. -/
def radarRawA : RadarRaw :=
  { icao24 := some "abc123", callsign := some "TST1",
    latitude := 10000, longitude := 20000, baro_altitude := some 11000,
    true_track := some 90 }

/-- A radar store state holding a non-empty snapshot. -/
def sampleRadarState : RadarState :=
  { data := [radarItemOfRaw radarRawA], loading := false, error := none }

/-- Sample hotspot record. -/
def hotspotA : GdeltHotspot := { latitude := 10000, longitude := 20000, count := 5 }

/-- Another hotspot record with different coordinates and mention count. -/
def hotspotD : GdeltHotspot := { latitude := 0, longitude := 0, count := 999 }

/-- A GDELT store state holding a non-empty snapshot. -/
def sampleGdeltState : GdeltState := { gdeltInit with data := [hotspotA] }

/-- Sample price record. -/
def priceItemA : PriceItem :=
  { country := "Singapore", currency := some "SGD", latitude := 12801,
    longitude := 1038509, gold_usd := some 2300, silver_usd := some 27,
    gold_local := some 3100, silver_local := some 36, fx_rate := some 135 }

/-- A price store state holding a non-empty snapshot. -/
def samplePriceState : PriceState :=
  { data := [priceItemA], loading := false, error := none }

/-- Sample advisory record. -/
def advisoryItemA : TravelAdvisoryItem := { country := "JP", level := some 1 }

/-- A travel advisory store state holding a non-empty snapshot. -/
def sampleTravelState : TravelAdvisoryState :=
  { data := [advisoryItemA], loading := false, error := none }

/-- An office record that is not part of the hardcoded fallback list. -/
def officeX : JPMorganOffice :=
  { id := 99, city := "Testville", country := "Nowhere",
    address := "1 Test Street", latitude := 0, longitude := 0 }

/-- A JP Morgan store state holding a non-empty snapshot that differs from the
hardcoded fallback list. -/
def sampleJPMState : JPMorganState :=
  { data := [officeX], loading := false, error := none }

/-- A stream state with a live channel and nothing scheduled. -/
def openStreamState : StreamState :=
  { channelOpen := true, streamConnected := true, pendingReconnects := 0,
    lastScheduledDelayMs := none }

/-- A hit-test result lying on the price layer. -/
def priceHit : HitResult :=
  { graphic := some { layer := some .metalsPrice, item := .priceItem priceItemA } }

/-- A hit-test result lying on the risk layer. -/
def riskHit : HitResult :=
  { graphic := some { layer := some .city, item := .riskItem riskItemA } }

/-- A hit-test result lying on the facility (JP Morgan Offices) layer. -/
def officeHit : HitResult :=
  { graphic := some { layer := some .jpmorganOffices, item := .officeItem officeX } }

/-- A boundary ring with 201 vertices. -/
def ring201 : List (Int × Int) := (List.range 201).map (fun i => ((i : Int), (i : Int)))

/-- A layer list state whose risk store is mid-refresh while already holding
data. -/
def sampleLayerListState : LayerListState :=
  { layers := [{ id := .risk, label := "Risk", enabled := true }],
    riskLoading := true, riskData := [riskItemA],
    priceLoading := false, priceData := [],
    jpmorganLoading := false, jpmorganData := [],
    travelAdvisoryLoading := false, travelAdvisoryData := [],
    gdeltLoading := false, gdeltData := [],
    radarLoading := false, radarData := [] }

/-!  Helper lemmas about the risk digest and the stable sort inside it. -/

theorem projRisk_map_insertionSort (l : List RiskItem) :
    (l.insertionSort riskLe).map projRisk = (l.map projRisk).insertionSort projLe :=
  List.map_insertionSort riskLe projLe projRisk l (fun _ _ _ _ => Iff.rfl)

theorem map_id_projRisk (l : List RiskItem) :
    (l.map projRisk).map RiskProj.id = l.map RiskItem.id := by
  simp [List.map_map, projRisk]

theorem pairwise_lt_insertionSort (m : List RiskProj)
    (hn : (m.map RiskProj.id).Nodup) :
    List.Pairwise (fun a b : RiskProj => a.id < b.id) (m.insertionSort projLe) := by
  have hs : List.Pairwise projLe (m.insertionSort projLe) :=
    List.sorted_insertionSort projLe m
  have hperm : List.Perm (m.insertionSort projLe) m := List.perm_insertionSort projLe m
  have hn' : ((m.insertionSort projLe).map RiskProj.id).Nodup :=
    ((hperm.map RiskProj.id).nodup_iff).mpr hn
  have hne : List.Pairwise (fun a b : RiskProj => a.id ≠ b.id) (m.insertionSort projLe) :=
    List.pairwise_map.mp hn'
  exact List.Pairwise.imp₂ (fun _ _ hle hne => lt_of_le_of_ne hle hne) hs hne

theorem insertionSort_eq_of_perm_of_nodup (m₁ m₂ : List RiskProj)
    (hp : List.Perm m₁ m₂) (hn : (m₁.map RiskProj.id).Nodup) :
    m₁.insertionSort projLe = m₂.insertionSort projLe := by
  have hn₂ : (m₂.map RiskProj.id).Nodup := ((hp.map RiskProj.id).nodup_iff).mp hn
  have h₁ := pairwise_lt_insertionSort m₁ hn
  have h₂ := pairwise_lt_insertionSort m₂ hn₂
  have hperm : List.Perm (m₁.insertionSort projLe) (m₂.insertionSort projLe) :=
    ((List.perm_insertionSort projLe m₁).trans hp).trans
      (List.perm_insertionSort projLe m₂).symm
  exact List.eq_of_perm_of_sorted (r := projKeyRel) hperm
    (h₁.imp fun h => Or.inl h) (h₂.imp fun h => Or.inl h)

theorem riskDigest_eq_of_projPerm (l₁ l₂ : List RiskItem)
    (hp : List.Perm (l₁.map projRisk) (l₂.map projRisk))
    (hn : (l₁.map RiskItem.id).Nodup) :
    riskDigest l₁ = riskDigest l₂ := by
  have hn' : ((l₁.map projRisk).map RiskProj.id).Nodup := by
    rw [map_id_projRisk]; exact hn
  have key : (l₁.insertionSort riskLe).map projRisk
      = (l₂.insertionSort riskLe).map projRisk := by
    rw [projRisk_map_insertionSort, projRisk_map_insertionSort]
    exact insertionSort_eq_of_perm_of_nodup _ _ hp hn'
  unfold riskDigest
  rw [key]

/-!  Evaluation lemmas for the success paths of the digest-computing fetches. -/

theorem fetchRisk_ok_snd (s : RiskState) (p : Option (List RiskItem)) (now : String) :
    (fetchRisk s (.ok p) now).2
      = match s.lastSnapshot with
        | none => false
        | some prev => riskDigest (p.getD []) != prev := rfl

theorem fetchRisk_ok_lastSnapshot (s : RiskState) (p : Option (List RiskItem)) (now : String) :
    (fetchRisk s (.ok p) now).1.lastSnapshot = some (riskDigest (p.getD [])) := rfl

theorem fetchGdelt_ok_snd (s : GdeltState) (p : GdeltPayload) (now : String) :
    (fetchGdelt s (.ok p) now).2
      = match s.lastSnapshot with
        | none => false
        | some prev =>
          gdeltDigest (p.query.getD GDELT_DEFAULT_QUERY) (p.features.getD []).length != prev :=
  rfl

theorem fetchGdelt_ok_lastSnapshot (s : GdeltState) (p : GdeltPayload) (now : String) :
    (fetchGdelt s (.ok p) now).1.lastSnapshot
      = some (gdeltDigest (p.query.getD GDELT_DEFAULT_QUERY) (p.features.getD []).length) :=
  rfl

theorem fetchRadar_ok_data (s : RadarState) (raw : Option (List RadarRaw)) :
    (fetchRadar s (.ok raw)).data = (raw.getD []).map radarItemOfRaw := rfl

/-- Claim C1, counterexample: the facility (JP Morgan) store is a domain store
whose refresh can fail with a non-OK response while it holds a non-empty data
snapshot, yet afterwards its data snapshot is replaced by the hardcoded
fallback list (not left unchanged) and its error stays null (not a generic
message). -/
theorem claim1_counterexample :
    sampleJPMState.data ≠ []
    ∧ (fetchOffices sampleJPMState (.httpError 500)).data ≠ sampleJPMState.data
    ∧ (fetchOffices sampleJPMState (.httpError 500)).error = none := by
  refine ⟨?_, ?_, ?_⟩ <;> decide

/-- Claim C1 (amended): for every domain store except the facility store — the
risk, radar, hotspot, price, and advisory stores — a refresh that fails with a
non-OK response or a thrown non-abort error while the store holds a non-empty
snapshot leaves the data snapshot unchanged and sets error to the non-null
generic domain message, and loading is false after the call in all outcomes
(success, failure, cancellation).  The facility store instead replaces its
data with the hardcoded fallback list and never sets error; its loading is
also false in all outcomes. -/
theorem claim1_stale_on_error_amended
    (s : RiskState) (t : RadarState) (g : GdeltState) (p : PriceState)
    (ta : TravelAdvisoryState) (j : JPMorganState) (status : Nat) (now : String)
    (_hs : s.data ≠ []) (_ht : t.data ≠ []) (_hg : g.data ≠ [])
    (_hp : p.data ≠ []) (_hta : ta.data ≠ []) :
    ((fetchRisk s (.httpError status) now).1.data = s.data
      ∧ (fetchRisk s (.httpError status) now).1.error = some "Unable to load risk data."
      ∧ (fetchRisk s .netError now).1.data = s.data
      ∧ (fetchRisk s .netError now).1.error = some "Unable to load risk data."
      ∧ ∀ f, (fetchRisk s f now).1.loading = false)
    ∧ ((fetchRadar t (.httpError status)).data = t.data
      ∧ (fetchRadar t (.httpError status)).error = some "Unable to load flight data."
      ∧ (fetchRadar t .netError).data = t.data
      ∧ (fetchRadar t .netError).error = some "Unable to load flight data."
      ∧ ∀ f, (fetchRadar t f).loading = false)
    ∧ ((fetchGdelt g (.httpError status) now).1.data = g.data
      ∧ (fetchGdelt g (.httpError status) now).1.error = some "Unable to load GDELT hotspots."
      ∧ (fetchGdelt g .netError now).1.data = g.data
      ∧ (fetchGdelt g .netError now).1.error = some "Unable to load GDELT hotspots."
      ∧ ∀ f, (fetchGdelt g f now).1.loading = false)
    ∧ ((fetchPrices p (.httpError status)).data = p.data
      ∧ (fetchPrices p (.httpError status)).error = some "Unable to load price data."
      ∧ (fetchPrices p .netError).data = p.data
      ∧ (fetchPrices p .netError).error = some "Unable to load price data."
      ∧ ∀ f, (fetchPrices p f).loading = false)
    ∧ ((fetchTravelAdvisories ta (.httpError status)).data = ta.data
      ∧ (fetchTravelAdvisories ta (.httpError status)).error
          = some "Unable to load travel advisories."
      ∧ (fetchTravelAdvisories ta .netError).data = ta.data
      ∧ (fetchTravelAdvisories ta .netError).error = some "Unable to load travel advisories."
      ∧ ∀ f, (fetchTravelAdvisories ta f).loading = false)
    ∧ ((fetchOffices j (.httpError status)).data = APAC_OFFICES
      ∧ (fetchOffices j (.httpError status)).error = none
      ∧ ∀ f, (fetchOffices j f).loading = false) := by
  refine ⟨⟨rfl, rfl, rfl, rfl, ?_⟩, ⟨rfl, rfl, rfl, rfl, ?_⟩, ⟨rfl, rfl, rfl, rfl, ?_⟩,
    ⟨rfl, rfl, rfl, rfl, ?_⟩, ⟨rfl, rfl, rfl, rfl, ?_⟩, ⟨rfl, rfl, ?_⟩⟩
  · intro f; cases f <;> rfl
  · intro f; cases f <;> rfl
  · intro f; cases f <;> rfl
  · intro f; cases f <;> rfl
  · intro f; cases f <;> rfl
  · intro f
    cases f with
    | ok payload =>
      by_cases hl : payload.items.length > 0 <;> simp [fetchOffices, hl]
    | httpError status => rfl
    | netError => rfl
    | aborted => rfl

/-- Claim C1, witness at concrete non-empty stores. -/
theorem claim1_witness :
    sampleRiskState.data ≠ []
    ∧ (fetchRisk sampleRiskState (.httpError 500) "t").1.data = sampleRiskState.data
    ∧ (fetchRisk sampleRiskState (.httpError 500) "t").1.error
        = some "Unable to load risk data."
    ∧ (fetchRadar sampleRadarState .netError).data = sampleRadarState.data := by
  have h := claim1_stale_on_error_amended sampleRiskState sampleRadarState sampleGdeltState
    samplePriceState sampleTravelState sampleJPMState 500 "t"
    (by decide) (by decide) (by decide) (by decide) (by decide)
  exact ⟨by decide, h.1.1, h.1.2.1, h.2.1.2.2.1⟩

/-- Claim C2: the very first successful refresh of the risk and hotspot stores
(the two stores that compute a comparison digest) — any successful refresh
executed while the stored prior digest is null — never emits a Change Event,
regardless of the fetched snapshot; and a Change Event is emitted exactly when
a prior digest exists and differs from the newly computed digest. -/
theorem claim2_first_fetch_silence
    (s : RiskState) (g : GdeltState) (payload : Option (List RiskItem))
    (gp : GdeltPayload) (now : String) :
    (s.lastSnapshot = none → (fetchRisk s (.ok payload) now).2 = false)
    ∧ (g.lastSnapshot = none → (fetchGdelt g (.ok gp) now).2 = false)
    ∧ ((fetchRisk s (.ok payload) now).2 = true
        ↔ ∃ prev, s.lastSnapshot = some prev ∧ riskDigest (payload.getD []) ≠ prev)
    ∧ ((fetchGdelt g (.ok gp) now).2 = true
        ↔ ∃ prev, g.lastSnapshot = some prev
            ∧ gdeltDigest (gp.query.getD GDELT_DEFAULT_QUERY)
                (gp.features.getD []).length ≠ prev) := by
  refine ⟨?_, ?_, ?_, ?_⟩
  · intro h; rw [fetchRisk_ok_snd, h]
  · intro h; rw [fetchGdelt_ok_snd, h]
  · rw [fetchRisk_ok_snd]
    cases h : s.lastSnapshot with
    | none => simp
    | some prev => simp [bne_iff_ne]
  · rw [fetchGdelt_ok_snd]
    cases h : g.lastSnapshot with
    | none => simp
    | some prev => simp [bne_iff_ne]

/-- Claim C2, witness: a first fetch into the pristine risk store is silent. -/
theorem claim2_witness :
    riskInit.lastSnapshot = none
    ∧ (fetchRisk riskInit (.ok (some [riskItemA])) "t").2 = false :=
  ⟨rfl,
    (claim2_first_fetch_silence riskInit gdeltInit (some [riskItemA])
      ⟨some [], some "military"⟩ "t").1 rfl⟩

/-- Claim C3, counterexample: two snapshots that are permutations of each
other with identical (natural key, comparable-fields) pairs but a duplicated
natural key produce different digests (the stable sort preserves the
differing relative order of the equal-key records), and feeding the second
snapshot to a store whose prior digest came from the first does emit a Change
Event. -/
theorem claim3_counterexample :
    List.Perm ([riskItemA, riskItemB].map projRisk) ([riskItemB, riskItemA].map projRisk)
    ∧ riskDigest [riskItemA, riskItemB] ≠ riskDigest [riskItemB, riskItemA]
    ∧ (fetchRisk (fetchRisk riskInit (.ok (some [riskItemA, riskItemB])) "t1").1
        (.ok (some [riskItemB, riskItemA])) "t2").2 = true := by
  refine ⟨?_, ?_, ?_⟩ <;> decide

/-- Claim C3 (amended): for any two snapshots whose (natural key,
comparable-fields) projections are permutations of each other and whose
natural keys are pairwise distinct, the risk digest is equal and feeding the
second snapshot to a store whose prior digest came from the first emits no
Change Event; for the hotspot store any permutation of the feature list with
the same query yields an equal digest and no Change Event, with no
distinctness needed. -/
theorem claim3_digest_stability_amended
    (l₁ l₂ : List RiskItem) (s : RiskState) (now₁ now₂ : String)
    (g : GdeltState) (q : String) (f₁ f₂ : List GdeltHotspot)
    (hp : List.Perm (l₁.map projRisk) (l₂.map projRisk))
    (hn : (l₁.map RiskItem.id).Nodup)
    (hf : List.Perm f₁ f₂) :
    riskDigest l₁ = riskDigest l₂
    ∧ (fetchRisk (fetchRisk s (.ok (some l₁)) now₁).1 (.ok (some l₂)) now₂).2 = false
    ∧ gdeltDigest q f₁.length = gdeltDigest q f₂.length
    ∧ (fetchGdelt (fetchGdelt g (.ok ⟨some f₁, some q⟩) now₁).1
        (.ok ⟨some f₂, some q⟩) now₂).2 = false := by
  have hd : riskDigest l₁ = riskDigest l₂ := riskDigest_eq_of_projPerm l₁ l₂ hp hn
  have hg : gdeltDigest q f₁.length = gdeltDigest q f₂.length := by
    rw [hf.length_eq]
  refine ⟨hd, ?_, hg, ?_⟩
  · rw [fetchRisk_ok_snd, fetchRisk_ok_lastSnapshot]
    show (riskDigest l₂ != riskDigest l₁) = false
    rw [← hd]
    exact bne_self_eq_false _
  · rw [fetchGdelt_ok_snd, fetchGdelt_ok_lastSnapshot]
    show (gdeltDigest q f₂.length != gdeltDigest q f₁.length) = false
    rw [← hg]
    exact bne_self_eq_false _

/-- Claim C3, witness: two distinct-key permuted snapshots digest equally and
the second fetch is silent. -/
theorem claim3_witness :
    List.Perm ([riskItemA, riskItemC].map projRisk) ([riskItemC, riskItemA].map projRisk)
    ∧ ([riskItemA, riskItemC].map RiskItem.id).Nodup
    ∧ riskDigest [riskItemA, riskItemC] = riskDigest [riskItemC, riskItemA]
    ∧ (fetchRisk (fetchRisk riskInit (.ok (some [riskItemA, riskItemC])) "t1").1
        (.ok (some [riskItemC, riskItemA])) "t2").2 = false := by
  have h := claim3_digest_stability_amended [riskItemA, riskItemC] [riskItemC, riskItemA]
    riskInit "t1" "t2" gdeltInit "military" [hotspotA] [hotspotA]
    (by decide) (by decide) (List.Perm.refl _)
  exact ⟨by decide, by decide, h.1, h.2.1⟩

/-- Claim C4, counterexample: an aborted risk refresh does not leave the error
field unchanged — the refresh clears error to null at entry, so a store whose
error was non-null before the aborted call ends with a different error value. -/
theorem claim4_counterexample :
    erroredRiskState.error ≠ none
    ∧ (fetchRisk erroredRiskState .aborted "t").1.error ≠ erroredRiskState.error := by
  refine ⟨?_, ?_⟩ <;> decide

/-- Claim C4 (amended): an aborted refresh leaves data unchanged, ends with
loading false, and sets no error message — error is null afterwards (cleared
at refresh entry), hence unchanged exactly when it was already null — for the
risk, radar, hotspot, price and advisory stores; the facility store instead
replaces its data with the hardcoded fallback list on an aborted call (its
inner catch swallows the abort), with error null and loading false as well. -/
theorem claim4_cancellation_amended
    (s : RiskState) (t : RadarState) (g : GdeltState) (p : PriceState)
    (ta : TravelAdvisoryState) (j : JPMorganState) (now : String) :
    ((fetchRisk s .aborted now).1.data = s.data
      ∧ (fetchRisk s .aborted now).1.loading = false
      ∧ (fetchRisk s .aborted now).1.error = none)
    ∧ ((fetchRadar t .aborted).data = t.data
      ∧ (fetchRadar t .aborted).loading = false
      ∧ (fetchRadar t .aborted).error = none)
    ∧ ((fetchGdelt g .aborted now).1.data = g.data
      ∧ (fetchGdelt g .aborted now).1.loading = false
      ∧ (fetchGdelt g .aborted now).1.error = none)
    ∧ ((fetchPrices p .aborted).data = p.data
      ∧ (fetchPrices p .aborted).loading = false
      ∧ (fetchPrices p .aborted).error = none)
    ∧ ((fetchTravelAdvisories ta .aborted).data = ta.data
      ∧ (fetchTravelAdvisories ta .aborted).loading = false
      ∧ (fetchTravelAdvisories ta .aborted).error = none)
    ∧ ((fetchOffices j .aborted).data = APAC_OFFICES
      ∧ (fetchOffices j .aborted).loading = false
      ∧ (fetchOffices j .aborted).error = none) :=
  ⟨⟨rfl, rfl, rfl⟩, ⟨rfl, rfl, rfl⟩, ⟨rfl, rfl, rfl⟩, ⟨rfl, rfl, rfl⟩,
    ⟨rfl, rfl, rfl⟩, ⟨rfl, rfl, rfl⟩⟩

/-- Claim C5: starting radar polling with polling requested schedules the
recurring refresh at the fixed 15000 ms interval exactly when the first fetch
returned a non-empty snapshot; an empty first snapshot schedules no recurring
poll; and a fresh start call clears any previously scheduled timer, its result
recomputed from scratch independently of that timer. -/
theorem claim5_poll_start (st : RadarPollState) (raw : List RadarRaw)
    (hne : raw ≠ []) :
    (startRadarPolling true st (.ok (some raw))).pollTimer = some 15000
    ∧ (∀ polling, (startRadarPolling polling st (.ok (some []))).pollTimer = none)
    ∧ (∀ polling r other,
        startRadarPolling polling ⟨st.store, other⟩ r = startRadarPolling polling st r) := by
  refine ⟨?_, ?_, ?_⟩
  · have hlen : (fetchRadar st.store (.ok (some raw))).data.length > 0 := by
      rw [fetchRadar_ok_data]
      simpa using List.length_pos.mpr hne
    unfold startRadarPolling
    simp [hlen, RADAR_POLL_MS]
  · intro polling
    unfold startRadarPolling
    simp [fetchRadar_ok_data]
  · intro polling r other
    rfl

/-- Claim C5, witness: starting with a stale timer handle and a one-element
first snapshot schedules the 15000 ms poll. -/
theorem claim5_witness :
    ([radarRawA] : List RadarRaw) ≠ []
    ∧ (startRadarPolling true ⟨radarInit, some 99⟩ (.ok (some [radarRawA]))).pollTimer
        = some 15000 :=
  ⟨by decide, (claim5_poll_start ⟨radarInit, some 99⟩ [radarRawA] (by decide)).1⟩

/-- Invariant of the GDELT stream lifecycle: counting a live channel as one,
at most one unit of reconnect work exists at any reachable state. -/
theorem gdeltStream_inv {s : StreamState} (h : GdeltStreamReachable s) :
    s.pendingReconnects + (if s.channelOpen then 1 else 0) ≤ 1 := by
  induction h with
  | start => decide
  | @chanError s h ih =>
    by_cases hc : s.channelOpen <;>
      simp [gdeltStreamStep, gdeltStreamOnError, hc] at ih ⊢ <;> omega
  | @timerFire s h ih =>
    by_cases hp : s.pendingReconnects > 0 <;>
      by_cases hc : s.channelOpen <;>
        simp [gdeltStreamStep, connectGdeltStream, hc, hp] at ih ⊢ <;> omega
  | @stop s h ih =>
    by_cases hc : s.channelOpen <;> simp [gdeltStreamStep, hc] at ih ⊢ <;> omega

/-- Claim C6, counterexample: the risk store is a stream-backed domain store
whose push-channel error handler only sets streamConnected to false — it does
not close the channel and schedules no reconnect. -/
theorem claim6_counterexample :
    (riskStreamOnError openStreamState).streamConnected = false
    ∧ (riskStreamOnError openStreamState).channelOpen = true
    ∧ (riskStreamOnError openStreamState).pendingReconnects = 0
    ∧ (riskStreamOnError openStreamState).lastScheduledDelayMs = none := by
  refine ⟨?_, ?_, ?_, ?_⟩ <;> decide

/-- Claim C6 (amended): on a push-channel error the hotspot (GDELT) store sets
streamConnected to false, closes the channel, and schedules one reconnect
after the fixed 2000 ms delay; along any event sequence of the GDELT stream
lifecycle started once at application start, at most one reconnect attempt is
pending at a time.  The risk store stream error handler, by contrast, only
sets streamConnected to false. -/
theorem claim6_stream_error_amended :
    (∀ s : StreamState, s.channelOpen = true →
      (gdeltStreamStep s .chanError).streamConnected = false
      ∧ (gdeltStreamStep s .chanError).channelOpen = false
      ∧ (gdeltStreamStep s .chanError).pendingReconnects = s.pendingReconnects + 1
      ∧ (gdeltStreamStep s .chanError).lastScheduledDelayMs = some GDELT_RECONNECT_DELAY_MS)
    ∧ GDELT_RECONNECT_DELAY_MS = 2000
    ∧ (∀ s : StreamState, GdeltStreamReachable s → s.pendingReconnects ≤ 1)
    ∧ (∀ s : StreamState, riskStreamOnError s = { s with streamConnected := false }) := by
  refine ⟨?_, rfl, ?_, fun s => rfl⟩
  · intro s hc
    refine ⟨?_, ?_, ?_, ?_⟩ <;> simp [gdeltStreamStep, gdeltStreamOnError, hc]
  · intro s h
    have hinv := gdeltStream_inv h
    by_cases hc : s.channelOpen <;> simp [hc] at hinv <;> omega

/-- Claim C6, witness: a concrete channel error on a live GDELT stream, and a
reachable state respecting the pending bound. -/
theorem claim6_witness :
    openStreamState.channelOpen = true
    ∧ (gdeltStreamStep openStreamState .chanError).channelOpen = false
    ∧ (gdeltStreamStep openStreamState .chanError).lastScheduledDelayMs = some 2000
    ∧ (gdeltStreamStep streamInit .start).pendingReconnects ≤ 1 := by
  have h := claim6_stream_error_amended
  exact ⟨rfl, (h.1 openStreamState rfl).2.1, (h.1 openStreamState rfl).2.2.2,
    h.2.2.1 _ GdeltStreamReachable.start⟩

set_option maxRecDepth 4000 in
/-- Claim C7, counterexample: a boundary ring with 201 (that is, at least 200)
vertices is rendered with all 201 vertices, not with exactly 200 — the
choropleth rendering path performs no sub-sampling. -/
theorem claim7_counterexample :
    200 ≤ ring201.length
    ∧ (outerRingOfRing ring201).length = 201
    ∧ (outerRingOfRing ring201).length ≠ 200 := by
  refine ⟨by decide, by decide, by decide⟩

/-- Claim C7 (amended): every boundary ring processed by the choropleth
rendering path is passed through unchanged — each vertex is kept and projected
to its (longitude, latitude) pair, so rings with fewer than 200 vertices are
unchanged and rings with at least 200 vertices keep all their vertices
(including the original first and last); the processing is deterministic but
involves no vertex-budget sub-sampling. -/
theorem claim7_ring_passthrough_amended (ring : List (Int × Int)) :
    outerRingOfRing ring = ring := by
  simp [outerRingOfRing]

/-- Claim C8: when a hit-test result set contains both a point-layer
primitive — from the price (Metals Price) or facility (JP Morgan Offices)
layer — and a risk (lower-priority) primitive, the risk layer suppresses its
own click handling (its onSelect is never invoked) and the point layer that
was hit resolves the click to its own record. -/
theorem claim8_priority_hit (results : List HitResult) (pr : HitResult)
    (tag : MapLayerTag)
    (htag : tag = .metalsPrice ∨ tag = .jpmorganOffices)
    (hmem : pr ∈ results) (hhit : hitOnLayer tag pr = true)
    (_hrisk : ∃ rr ∈ results, hitOnLayer .city rr = true) :
    riskClickSelection results = none
    ∧ ∃ r ∈ results, ∃ g, r.graphic = some g ∧ g.layer = some tag
        ∧ (tag = .metalsPrice →
            priceClickSelection true results = some ⟨"price", g.item⟩)
        ∧ (tag = .jpmorganOffices →
            jpmorganClickSelection results = some ⟨"jpmorgan", g.item⟩) := by
  constructor
  · have hpri : isPriorityHit pr = true := by
      unfold hitOnLayer at hhit
      unfold isPriorityHit
      match hg : pr.graphic with
      | none => rw [hg] at hhit; exact absurd hhit (by simp)
      | some g =>
        rw [hg] at hhit
        have hl : g.layer = some tag := by simpa using hhit
        rcases htag with rfl | rfl <;> simp [hl, layerTitle]
    have hsome : (results.find? isPriorityHit).isSome :=
      List.find?_isSome.mpr ⟨pr, hmem, hpri⟩
    unfold riskClickSelection
    simp [hsome]
  · have hsome : (results.find? (hitOnLayer tag)).isSome :=
      List.find?_isSome.mpr ⟨pr, hmem, hhit⟩
    match hfind : results.find? (hitOnLayer tag) with
    | none => rw [hfind] at hsome; exact absurd hsome (by simp)
    | some r₀ =>
      have hr₀mem : r₀ ∈ results := List.mem_of_find?_eq_some hfind
      have hr₀ : hitOnLayer tag r₀ = true := List.find?_some hfind
      unfold hitOnLayer at hr₀
      match hg : r₀.graphic with
      | none => rw [hg] at hr₀; exact absurd hr₀ (by simp)
      | some g =>
        rw [hg] at hr₀
        have hlayer : g.layer = some tag := by simpa using hr₀
        refine ⟨r₀, hr₀mem, g, hg, hlayer, ?_, ?_⟩
        · rintro rfl
          unfold priceClickSelection
          simp [hfind, hg]
        · rintro rfl
          unfold jpmorganClickSelection
          simp [hfind, hg]

/-- Claim C8, witness: concrete hit-test result sets with overlapping
facility-and-risk primitives and overlapping price-and-risk primitives; in
both, the risk click is suppressed and the point layer resolves to its own
record. -/
theorem claim8_witness :
    officeHit ∈ [officeHit, riskHit]
    ∧ hitOnLayer .jpmorganOffices officeHit = true
    ∧ (∃ rr ∈ [officeHit, riskHit], hitOnLayer .city rr = true)
    ∧ riskClickSelection [officeHit, riskHit] = none
    ∧ jpmorganClickSelection [officeHit, riskHit]
        = some ⟨"jpmorgan", .officeItem officeX⟩
    ∧ priceHit ∈ [priceHit, riskHit]
    ∧ hitOnLayer .metalsPrice priceHit = true
    ∧ riskClickSelection [priceHit, riskHit] = none
    ∧ priceClickSelection true [priceHit, riskHit]
        = some ⟨"price", .priceItem priceItemA⟩ := by
  have hjpm := claim8_priority_hit [officeHit, riskHit] officeHit .jpmorganOffices
    (Or.inr rfl) (by decide) (by decide) ⟨riskHit, by decide, by decide⟩
  have hpr := claim8_priority_hit [priceHit, riskHit] priceHit .metalsPrice
    (Or.inl rfl) (by decide) (by decide) ⟨riskHit, by decide, by decide⟩
  exact ⟨by decide, by decide, ⟨riskHit, by decide, by decide⟩, hjpm.1, by decide,
    by decide, by decide, hpr.1, by decide⟩

/-- Claim C9: for every layer id and store state the derived loading indicator
of the layer list equals (loading OR (enabled AND data empty)) AND data empty,
so a layer whose data snapshot is non-empty never reports loading, even while
a background refresh is in flight. -/
theorem claim9_layer_loading (s : LayerListState) (id : LayerId) :
    getLayerLoading s id
      = ((storeLoadingOf s id
            || (findLayerEnabled s.layers id && (storeDataLen s id == 0)))
          && (storeDataLen s id == 0))
    ∧ (storeDataLen s id ≠ 0 → getLayerLoading s id = false) := by
  have hmain : getLayerLoading s id
      = ((storeLoadingOf s id
            || (findLayerEnabled s.layers id && (storeDataLen s id == 0)))
          && (storeDataLen s id == 0)) := by
    cases id <;> rfl
  refine ⟨hmain, ?_⟩
  intro h
  rw [hmain]
  have hb : (storeDataLen s id == 0) = false := by
    simpa using h
  rw [hb, Bool.and_false]

/-- Claim C9, witness: a layer already holding data reports no loading even
while its store refresh is in flight. -/
theorem claim9_witness :
    storeDataLen sampleLayerListState .risk ≠ 0
    ∧ sampleLayerListState.riskLoading = true
    ∧ getLayerLoading sampleLayerListState .risk = false := by
  have h := claim9_layer_loading sampleLayerListState .risk
  exact ⟨by decide, rfl, h.2 (by decide)⟩

/-- Claim C10: the hotspot comparison digest is a function of the response
query and feature count alone — two successful fetches with equal query and
equal feature count produce equal digests and the second emits no Change
Event, even when the feature coordinates or mention counts differ. -/
theorem claim10_gdelt_digest (g : GdeltState) (p₁ p₂ : GdeltPayload)
    (now₁ now₂ : String)
    (hq : p₁.query = p₂.query)
    (hlen : (p₁.features.getD []).length = (p₂.features.getD []).length) :
    gdeltDigest (p₁.query.getD GDELT_DEFAULT_QUERY) (p₁.features.getD []).length
      = gdeltDigest (p₂.query.getD GDELT_DEFAULT_QUERY) (p₂.features.getD []).length
    ∧ (fetchGdelt (fetchGdelt g (.ok p₁) now₁).1 (.ok p₂) now₂).2 = false := by
  have hd : gdeltDigest (p₁.query.getD GDELT_DEFAULT_QUERY) (p₁.features.getD []).length
      = gdeltDigest (p₂.query.getD GDELT_DEFAULT_QUERY) (p₂.features.getD []).length := by
    rw [hq, hlen]
  refine ⟨hd, ?_⟩
  rw [fetchGdelt_ok_snd, fetchGdelt_ok_lastSnapshot]
  show (gdeltDigest (p₂.query.getD GDELT_DEFAULT_QUERY) (p₂.features.getD []).length
      != gdeltDigest (p₁.query.getD GDELT_DEFAULT_QUERY) (p₁.features.getD []).length)
    = false
  rw [← hd]
  exact bne_self_eq_false _

/-- Claim C10, witness: two payloads with the same query and one feature each
but different coordinates and mention counts digest equally and the second
fetch is silent. -/
theorem claim10_witness :
    (GdeltPayload.mk (some [hotspotA]) (some "military")).query
        = (GdeltPayload.mk (some [hotspotD]) (some "military")).query
    ∧ ((GdeltPayload.mk (some [hotspotA]) (some "military")).features.getD []).length
        = ((GdeltPayload.mk (some [hotspotD]) (some "military")).features.getD []).length
    ∧ (fetchGdelt
        (fetchGdelt gdeltInit (.ok ⟨some [hotspotA], some "military"⟩) "t1").1
        (.ok ⟨some [hotspotD], some "military"⟩) "t2").2 = false := by
  have h := claim10_gdelt_digest gdeltInit ⟨some [hotspotA], some "military"⟩
    ⟨some [hotspotD], some "military"⟩ "t1" "t2" rfl rfl
  exact ⟨rfl, rfl, h.2⟩
